import Mathlib

/-!
# Verification of the FrameForge 3D frame-model generation pipeline

Shallow embedding of the core of the `3dframegee` repository:

* `GeometryGenerator` (src/generators/ModelGenerator.ts, second file in the bundle):
  profile cross-section construction, per-edge extrusion (delegated to the external
  three.js `ExtrudeGeometry`, modelled as an abstract extrusion function), geometry
  merging (`mergeGeometries`), and `center()`.
* `ModelGenerator.generateModels` / `createFrameProfile` (src/generators/ModelGenerator.ts).
* `processGenerationJob` / `processBatchGenerationJob` (src/worker.ts).
* `addGenerationJob` / `addBatchGenerationJob` (src/queue/queue.ts), over a model of
  BullMQ's jobId-based duplicate suppression.
* `USDZConverter` fallback (`createSimpleUSDZ`) as used by `generateModels`.

Modelling conventions:
* JavaScript numbers are modelled as `ℚ` (all arithmetic appearing in the embedded
  code paths is exact: +, -, *, /2, max, comparison).
* `a || b` on numbers is `jsOr` (JS treats 0 as falsy); on optional strings it is
  `strTruthy`-guarded choice (JS treats `""`, `null`, `undefined` as falsy).
* A `THREE.BufferGeometry` is modelled by its `position` attribute (a flat list of
  rationals, 3 per vertex) and its optional `index` attribute.  The `normal` and `uv`
  attributes are carried by the source `mergeGeometries` in exactly the same
  set-at-offset manner as positions, are recomputed (`computeVertexNormals`) at the end
  of the merge, and are never inspected by any verified property, so the embedding
  omits them.  `BufferAttribute.count` for positions is `array.length / 3`.
* Typed-array writes (`dest.set(src, offset)`) are modelled by `setAt`.
* I/O surfaces (database, storage, BullMQ, external converters) are modelled as
  explicit state / parameters; `generateModels` additionally produces the ordered
  list of observable pipeline events (export, validate, upload, convert, fallback).
-/

/-- JavaScript `a || b` for numbers: `0` is falsy. -/
def jsOr (a b : ℚ) : ℚ := if a = 0 then b else a

/-- JavaScript truthiness for an optional string (`null`/`undefined`/`""` are falsy). -/
def strTruthy : Option String → Bool
  | none => false
  | some s => !(s == "")

/-- JavaScript `a || b` for optional strings, with a mandatory fallback. -/
def strOr (a : Option String) (b : String) : String :=
  match a with
  | none => b
  | some s => if s == "" then b else s

/-! ## Geometry data model (three.js BufferGeometry fragment) -/

/-- A 3D point (`THREE.Vector3`), used for extrusion path endpoints. -/
structure Vec3 where
  x : ℚ
  y : ℚ
  z : ℚ
deriving DecidableEq, Repr

/-- One command of a 2D contour (`THREE.Shape` / `THREE.Path` construction calls). -/
inductive PathCmd where
  | moveTo (x y : ℚ)
  | lineTo (x y : ℚ)
  | quadraticCurveTo (cx cy x y : ℚ)
deriving DecidableEq, Repr

/-- A `THREE.Shape`: an outer contour plus a list of hole contours. -/
structure Shape where
  cmds : List PathCmd
  holes : List (List PathCmd)
deriving DecidableEq, Repr

/-- A `THREE.BufferGeometry`, restricted to the attributes the verified properties
observe: the flat position array (3 rationals per vertex) and the optional index
array. -/
structure Geometry where
  positions : List ℚ
  index : Option (List ℕ)
deriving DecidableEq, Repr

/-- `geometry.attributes.position.count`: three.js computes `array.length / itemSize`. -/
def vertexCount (g : Geometry) : ℕ := g.positions.length / 3

/-- The index array of a geometry, `[]` when the geometry is non-indexed
(the merge loop guards every index access with `if (geo.index)`). -/
def indexArray (g : Geometry) : List ℕ :=
  match g.index with
  | some l => l
  | none => []

/-- Well-formedness of a mesh buffer: `positions.length = 3 * vertexCount` and every
index value is strictly below the vertex count. -/
def isWF (g : Geometry) : Bool :=
  (g.positions.length == 3 * vertexCount g) && (indexArray g).all (· < vertexCount g)

/-- Typed-array write `dest.set(src, off)`: overwrite `src.length` entries of `dest`
starting at `off`.  (Agrees with the JS semantics whenever the write is in bounds,
which is the case at every use below.) -/
def setAt {α : Type} (dest : List α) (off : ℕ) (src : List α) : List α :=
  dest.take off ++ src ++ dest.drop (off + src.length)

/-- The `geometries.forEach` loop of `GeometryGenerator.mergeGeometries`: copy each
geometry's position array at `vertexOffset * 3`, copy its index array shifted by
`baseVertex` at `indexOffset`, then advance `vertexOffset`, `indexOffset` and
`baseVertex` by the geometry's vertex / index counts. -/
def mergeLoop : List Geometry → List ℚ → List ℕ → ℕ → ℕ → ℕ → List ℚ × List ℕ
  | [], pos, idx, _, _, _ => (pos, idx)
  | g :: rest, pos, idx, vertexOffset, indexOffset, baseVertex =>
      mergeLoop rest
        (setAt pos (vertexOffset * 3) g.positions)
        (setAt idx indexOffset ((indexArray g).map (· + baseVertex)))
        (vertexOffset + vertexCount g)
        (indexOffset + (indexArray g).length)
        (baseVertex + vertexCount g)

/-- `GeometryGenerator.mergeGeometries`: allocate `Float32Array(totalVertices * 3)` and
`Uint32Array(totalIndices)`, run the copy loop, and install the merged attributes.
(`computeVertexNormals` only rewrites the omitted normal attribute.) -/
def mergeGeometries (geometries : List Geometry) : Geometry :=
  let totalVertices := (geometries.map vertexCount).sum
  let totalIndices := (geometries.map (fun g => (indexArray g).length)).sum
  let merged := mergeLoop geometries
    (List.replicate (totalVertices * 3) (0 : ℚ))
    (List.replicate totalIndices 0) 0 0 0
  { positions := merged.1, index := some merged.2 }

/-- Group a flat coordinate list into vertex triples (dropping a trailing fragment,
which never occurs on the well-formed buffers the pipeline produces). -/
def chunk3 : List ℚ → List (ℚ × ℚ × ℚ)
  | x :: y :: z :: rest => (x, y, z) :: chunk3 rest
  | _ => []

/-- Flatten vertex triples back into a coordinate list. -/
def flatten3 : List (ℚ × ℚ × ℚ) → List ℚ
  | [] => []
  | (x, y, z) :: rest => x :: y :: z :: flatten3 rest

/-- `BufferGeometry.center()`: translate all positions by minus the bounding-box
midpoint, leaving the index untouched.  (A geometry with no vertices has an empty
bounding box; it is returned unchanged.) -/
def center (g : Geometry) : Geometry :=
  match chunk3 g.positions with
  | [] => g
  | v :: vs =>
      let xs := (v :: vs).map (·.1)
      let ys := (v :: vs).map (·.2.1)
      let zs := (v :: vs).map (·.2.2)
      let cx := (xs.foldl min v.1 + xs.foldl max v.1) / 2
      let cy := (ys.foldl min v.2.1 + ys.foldl max v.2.1) / 2
      let cz := (zs.foldl min v.2.2 + zs.foldl max v.2.2) / 2
      { g with positions :=
          flatten3 ((v :: vs).map (fun p => (p.1 - cx, p.2.1 - cy, p.2.2 - cz))) }

/-! ## Frame profiles and cross-section shapes -/

/-- `ProfileType` enum of src/database.ts.  The enum is closed, so the `default`
branch of `generateFrameGeometry`'s switch is only reachable through `FLAT` here. -/
inductive ProfileType where
  | flat
  | stepped
  | ornate
  | float
  | shadowbox
  | canvas_wrap
deriving DecidableEq, Repr

/-- `FrameProfile` of src/database.ts: molding cross-section parameters in inches.
Optional fields are `Option ℚ` (JS `undefined` ↦ `none`). -/
structure FrameProfile where
  type : ProfileType
  width : ℚ
  depth : ℚ
  rabbet_depth : Option ℚ := none
  rabbet_width : Option ℚ := none
  lip_height : Option ℚ := none
  ornate_detail_scale : Option ℚ := none
deriving DecidableEq, Repr

/-- `GeometryGenerator.INCHES_TO_METERS = 0.0254`. -/
def INCHES_TO_METERS : ℚ := 127 / 5000

/-- JS truthiness of an optional number (`undefined` and `0` are falsy), as in
`if (profile.rabbet_width && profile.rabbet_depth)`. -/
def numTruthy : Option ℚ → Bool
  | none => false
  | some v => !(v == 0)

/-- JS `x || d` for an optional number, as in `profile.lip_height || 0.5`. -/
def optOr (a : Option ℚ) (d : ℚ) : ℚ :=
  match a with
  | none => d
  | some v => if v = 0 then d else v

/-- The type of `GeometryGenerator.extrudeProfileAlongPath`: a 2-point sweep of a
cross-section shape.  The implementation wraps the external three.js
`CatmullRomCurve3` + `ExtrudeGeometry` (with `steps = pathPoints.length * 10`,
`bevelEnabled: false`), so the pipeline is verified for an arbitrary extrusion
function. -/
def ExtrudeFn : Type := Shape → List Vec3 → Geometry

/-- The four per-edge extrusions (top, right, bottom, left) that every profile
generator pushes, with identical path endpoints in each generator. -/
def fourSides (E : ExtrudeFn) (shape : Shape) (outerW outerH : ℚ) : List Geometry :=
  [ E shape [⟨-outerW / 2, outerH / 2, 0⟩, ⟨outerW / 2, outerH / 2, 0⟩],
    E shape [⟨outerW / 2, outerH / 2, 0⟩, ⟨outerW / 2, -outerH / 2, 0⟩],
    E shape [⟨outerW / 2, -outerH / 2, 0⟩, ⟨-outerW / 2, -outerH / 2, 0⟩],
    E shape [⟨-outerW / 2, -outerH / 2, 0⟩, ⟨-outerW / 2, outerH / 2, 0⟩] ]

/-- `GeometryGenerator.generateFlatProfile`: rectangular cross-section, with a
centered rabbet hole when both rabbet dimensions are truthy; extrude along the four
edges, merge, center. -/
def generateFlatProfile (E : ExtrudeFn) (profile : FrameProfile)
    (outerWidth outerHeight : ℚ) : Geometry :=
  let frameWidth := profile.width * INCHES_TO_METERS
  let frameDepth := profile.depth * INCHES_TO_METERS
  let outerW := outerWidth * INCHES_TO_METERS
  let outerH := outerHeight * INCHES_TO_METERS
  let outer : List PathCmd :=
    [.moveTo 0 0, .lineTo frameWidth 0, .lineTo frameWidth frameDepth,
     .lineTo 0 frameDepth, .lineTo 0 0]
  let holes : List (List PathCmd) :=
    if numTruthy profile.rabbet_width && numTruthy profile.rabbet_depth then
      let rabbitWidth := (profile.rabbet_width.getD 0) * INCHES_TO_METERS
      let rabbitDepth := (profile.rabbet_depth.getD 0) * INCHES_TO_METERS
      let offset := (frameWidth - rabbitWidth) / 2
      [[.moveTo offset (frameDepth - rabbitDepth),
        .lineTo (offset + rabbitWidth) (frameDepth - rabbitDepth),
        .lineTo (offset + rabbitWidth) frameDepth,
        .lineTo offset frameDepth,
        .lineTo offset (frameDepth - rabbitDepth)]]
    else []
  let shape : Shape := { cmds := outer, holes := holes }
  center (mergeGeometries (fourSides E shape outerW outerH))

/-- `GeometryGenerator.generateSteppedProfile`: L/step-shaped hexagon cut by the
rabbet (defaulting each rabbet dimension through `|| 0.25`). -/
def generateSteppedProfile (E : ExtrudeFn) (profile : FrameProfile)
    (outerWidth outerHeight : ℚ) : Geometry :=
  let frameWidth := profile.width * INCHES_TO_METERS
  let frameDepth := profile.depth * INCHES_TO_METERS
  let rabbitWidth := optOr profile.rabbet_width (1/4) * INCHES_TO_METERS
  let rabbitDepth := optOr profile.rabbet_depth (1/4) * INCHES_TO_METERS
  let shape : Shape :=
    { cmds :=
        [.moveTo 0 0, .lineTo frameWidth 0,
         .lineTo frameWidth (frameDepth - rabbitDepth),
         .lineTo (frameWidth - rabbitWidth) (frameDepth - rabbitDepth),
         .lineTo (frameWidth - rabbitWidth) frameDepth,
         .lineTo 0 frameDepth, .lineTo 0 0],
      holes := [] }
  let outerW := outerWidth * INCHES_TO_METERS
  let outerH := outerHeight * INCHES_TO_METERS
  center (mergeGeometries (fourSides E shape outerW outerH))

/-- `GeometryGenerator.generateFloatProfile`: L-shaped profile whose lip height
(defaulted through `|| 0.5`) creates the raised inner shelf. -/
def generateFloatProfile (E : ExtrudeFn) (profile : FrameProfile)
    (outerWidth outerHeight : ℚ) : Geometry :=
  let frameWidth := profile.width * INCHES_TO_METERS
  let frameDepth := profile.depth * INCHES_TO_METERS
  let lipHeight := optOr profile.lip_height (1/2) * INCHES_TO_METERS
  let shape : Shape :=
    { cmds :=
        [.moveTo 0 0, .lineTo frameWidth 0, .lineTo frameWidth lipHeight,
         .lineTo (frameWidth * (3/10)) lipHeight,
         .lineTo (frameWidth * (3/10)) frameDepth,
         .lineTo 0 frameDepth, .lineTo 0 0],
      holes := [] }
  let outerW := outerWidth * INCHES_TO_METERS
  let outerH := outerHeight * INCHES_TO_METERS
  center (mergeGeometries (fourSides E shape outerW outerH))

/-- `GeometryGenerator.generateOrnateProfile`: base rectangle with quadratic-curve
bulges, scaled by `ornate_detail_scale || 0.1`. -/
def generateOrnateProfile (E : ExtrudeFn) (profile : FrameProfile)
    (outerWidth outerHeight : ℚ) : Geometry :=
  let frameWidth := profile.width * INCHES_TO_METERS
  let frameDepth := profile.depth * INCHES_TO_METERS
  let detailScale := optOr profile.ornate_detail_scale (1/10)
  let shape : Shape :=
    { cmds :=
        [.moveTo 0 0,
         .lineTo (frameWidth * (1/5)) 0,
         .quadraticCurveTo (frameWidth * (1/2)) (-frameDepth * detailScale)
           (frameWidth * (4/5)) 0,
         .lineTo frameWidth 0,
         .lineTo frameWidth (frameDepth * (7/10)),
         .quadraticCurveTo (frameWidth * (7/10)) (frameDepth * (17/20))
           (frameWidth * (1/2)) frameDepth,
         .lineTo 0 frameDepth, .lineTo 0 0],
      holes := [] }
  let outerW := outerWidth * INCHES_TO_METERS
  let outerH := outerHeight * INCHES_TO_METERS
  center (mergeGeometries (fourSides E shape outerW outerH))

/-- `GeometryGenerator.generateShadowBoxProfile`: "Shadow boxes are essentially deep
flat frames" — delegate to the flat generator with `depth := Math.max(depth, 2)`. -/
def generateShadowBoxProfile (E : ExtrudeFn) (profile : FrameProfile)
    (outerWidth outerHeight : ℚ) : Geometry :=
  let deepProfile := { profile with depth := max profile.depth 2 }
  generateFlatProfile E deepProfile outerWidth outerHeight

/-- `GeometryGenerator.generateCanvasWrapProfile`: plain rectangular cross-section,
no rabbet hole. -/
def generateCanvasWrapProfile (E : ExtrudeFn) (profile : FrameProfile)
    (outerWidth outerHeight : ℚ) : Geometry :=
  let frameWidth := profile.width * INCHES_TO_METERS
  let frameDepth := profile.depth * INCHES_TO_METERS
  let shape : Shape :=
    { cmds :=
        [.moveTo 0 0, .lineTo frameWidth 0, .lineTo frameWidth frameDepth,
         .lineTo 0 frameDepth, .lineTo 0 0],
      holes := [] }
  let outerW := outerWidth * INCHES_TO_METERS
  let outerH := outerHeight * INCHES_TO_METERS
  center (mergeGeometries (fourSides E shape outerW outerH))

/-- `GeometryGenerator.generateFrameGeometry`: dispatch on the profile type (the
`default` switch branch also yields the flat generator). -/
def generateFrameGeometry (E : ExtrudeFn) (profile : FrameProfile)
    (outerWidth outerHeight : ℚ) : Geometry :=
  match profile.type with
  | .flat => generateFlatProfile E profile outerWidth outerHeight
  | .stepped => generateSteppedProfile E profile outerWidth outerHeight
  | .float => generateFloatProfile E profile outerWidth outerHeight
  | .ornate => generateOrnateProfile E profile outerWidth outerHeight
  | .shadowbox => generateShadowBoxProfile E profile outerWidth outerHeight
  | .canvas_wrap => generateCanvasWrapProfile E profile outerWidth outerHeight

/-! ## Correctness of `mergeGeometries` -/

/-- Concatenation of the input position arrays (the intended effect of the merge's
position copies). -/
def posJoin (gs : List Geometry) : List ℚ := (gs.map (·.positions)).flatten

/-- The claimed index rewrite: each input's indices shifted by the running
vertex-base offset, concatenated in order. -/
def rebasedIndices (b : ℕ) : List Geometry → List ℕ
  | [] => []
  | g :: rest => (indexArray g).map (· + b) ++ rebasedIndices (b + vertexCount g) rest

lemma setAt_append {α : Type} (P src rest : List α) :
    setAt (P ++ rest) P.length src = P ++ src ++ rest.drop src.length := by
  unfold setAt
  rw [List.take_left, List.drop_append, List.append_assoc]

lemma setAt_append_replicate {α : Type} (P src : List α) (r : ℕ) (d : α) :
    setAt (P ++ List.replicate (src.length + r) d) P.length src
      = (P ++ src) ++ List.replicate r d := by
  rw [setAt_append, List.drop_replicate, Nat.add_sub_cancel_left]

/-- Sum of the position-array lengths of a list of geometries. -/
def posLenSum (gs : List Geometry) : ℕ := (gs.map (·.positions.length)).sum

/-- Sum of the index-array lengths of a list of geometries. -/
def idxLenSum (gs : List Geometry) : ℕ := (gs.map (fun g => (indexArray g).length)).sum

lemma vertexCount_mul_three {g : Geometry} (h : 3 ∣ g.positions.length) :
    vertexCount g * 3 = g.positions.length := by
  unfold vertexCount
  omega

/-- Invariant of the `forEach` copy loop: starting from already-written prefixes `P`
and `I` padded by exactly the room the remaining geometries need, the loop appends
the concatenated positions and the rebased indices. -/
lemma mergeLoop_spec :
    ∀ (gs : List Geometry) (P : List ℚ) (I : List ℕ) (vOff iOff b : ℕ),
      (∀ g ∈ gs, 3 ∣ g.positions.length) →
      vOff * 3 = P.length → iOff = I.length →
      mergeLoop gs (P ++ List.replicate (posLenSum gs) 0)
        (I ++ List.replicate (idxLenSum gs) 0) vOff iOff b
      = (P ++ posJoin gs, I ++ rebasedIndices b gs) := by
  intro gs
  induction gs with
  | nil =>
      intro P I vOff iOff b _ _ _
      simp [mergeLoop, posLenSum, idxLenSum, posJoin, rebasedIndices]
  | cons g rest ih =>
      intro P I vOff iOff b h3 hv hi
      have hg3 : 3 ∣ g.positions.length := h3 g (List.mem_cons_self g rest)
      have hrest3 : ∀ g' ∈ rest, 3 ∣ g'.positions.length :=
        fun g' hg' => h3 g' (List.mem_cons_of_mem g hg')
      have hsum : posLenSum (g :: rest) = g.positions.length + posLenSum rest := by
        simp [posLenSum]
      have hisum : idxLenSum (g :: rest) = (indexArray g).length + idxLenSum rest := by
        simp [idxLenSum]
      rw [hsum, hisum]
      show mergeLoop (g :: rest) _ _ _ _ _ = _
      rw [mergeLoop]
      have hvP : vOff * 3 = P.length := hv
      have e1 : setAt (P ++ List.replicate (g.positions.length + posLenSum rest) (0 : ℚ))
          (vOff * 3) g.positions = (P ++ g.positions) ++ List.replicate (posLenSum rest) 0 := by
        rw [hvP]
        exact setAt_append_replicate P g.positions (posLenSum rest) 0
      have e2 : setAt (I ++ List.replicate ((indexArray g).length + idxLenSum rest) 0)
          iOff ((indexArray g).map (· + b))
          = (I ++ (indexArray g).map (· + b)) ++ List.replicate (idxLenSum rest) 0 := by
        rw [hi]
        have : (indexArray g).length = ((indexArray g).map (· + b)).length := by simp
        rw [this]
        exact setAt_append_replicate I _ (idxLenSum rest) 0
      rw [e1, e2]
      have hv' : (vOff + vertexCount g) * 3 = (P ++ g.positions).length := by
        rw [List.length_append, ← hvP, Nat.add_mul, vertexCount_mul_three hg3]
      have hi' : iOff + (indexArray g).length = (I ++ (indexArray g).map (· + b)).length := by
        simp [hi]
      rw [ih (P ++ g.positions) (I ++ (indexArray g).map (· + b))
        (vOff + vertexCount g) (iOff + (indexArray g).length) (b + vertexCount g)
        hrest3 hv' hi']
      simp [posJoin, rebasedIndices]

lemma posLenSum_eq {gs : List Geometry} (h3 : ∀ g ∈ gs, 3 ∣ g.positions.length) :
    (gs.map vertexCount).sum * 3 = posLenSum gs := by
  induction gs with
  | nil => simp [posLenSum]
  | cons g rest ih =>
      have hg3 := h3 g (List.mem_cons_self g rest)
      have := ih (fun g' hg' => h3 g' (List.mem_cons_of_mem g hg'))
      simp only [posLenSum, List.map_cons, List.sum_cons] at *
      rw [Nat.add_mul, vertexCount_mul_three hg3, this]

/-- The merged geometry's attributes, as installed by `mergeGeometries`: positions are
the concatenation of the inputs' positions, the index is the rebased concatenation. -/
lemma mergeGeometries_eq {gs : List Geometry} (h3 : ∀ g ∈ gs, 3 ∣ g.positions.length) :
    mergeGeometries gs = { positions := posJoin gs, index := some (rebasedIndices 0 gs) } := by
  unfold mergeGeometries
  have hrep : (gs.map vertexCount).sum * 3 = posLenSum gs := posLenSum_eq h3
  have h := mergeLoop_spec gs [] [] 0 0 0 h3 (by simp) (by simp)
  simp only [List.nil_append] at h
  simp only [hrep, idxLenSum] at *
  rw [show (gs.map (fun g => (indexArray g).length)).sum = idxLenSum gs from rfl] at *
  rw [h]

lemma posJoin_length (gs : List Geometry) : (posJoin gs).length = posLenSum gs := by
  unfold posJoin posLenSum
  rw [List.length_flatten, List.map_map]
  rfl

/-! ## The mesh-buffer well-formedness invariant -/

lemma isWF_iff (g : Geometry) :
    isWF g = true ↔ (3 ∣ g.positions.length ∧ ∀ i ∈ indexArray g, i < vertexCount g) := by
  unfold isWF
  rw [Bool.and_eq_true, beq_iff_eq, List.all_eq_true]
  constructor
  · rintro ⟨h1, h2⟩
    refine ⟨?_, fun i hi => by simpa using h2 i hi⟩
    unfold vertexCount at h1
    omega
  · rintro ⟨h1, h2⟩
    refine ⟨?_, fun i hi => by simpa using h2 i hi⟩
    unfold vertexCount
    omega

lemma rebasedIndices_lt {gs : List Geometry}
    (hb : ∀ g ∈ gs, ∀ i ∈ indexArray g, i < vertexCount g) :
    ∀ b, ∀ i ∈ rebasedIndices b gs, i < b + (gs.map vertexCount).sum := by
  induction gs with
  | nil => simp [rebasedIndices]
  | cons g rest ih =>
      intro b i hi
      rw [rebasedIndices] at hi
      rcases List.mem_append.1 hi with h | h
      · obtain ⟨j, hj, rfl⟩ := List.mem_map.1 h
        have hjlt := hb g (List.mem_cons_self g rest) j hj
        simp only [List.map_cons, List.sum_cons]
        omega
      · have hrest : ∀ g' ∈ rest, ∀ i ∈ indexArray g', i < vertexCount g' :=
          fun g' hg' => hb g' (List.mem_cons_of_mem g hg')
        have := ih hrest (b + vertexCount g) i h
        simp only [List.map_cons, List.sum_cons]
        omega

lemma flatten3_length (l : List (ℚ × ℚ × ℚ)) : (flatten3 l).length = 3 * l.length := by
  induction l with
  | nil => rfl
  | cons p rest ih =>
      obtain ⟨x, y, z⟩ := p
      simp only [flatten3, List.length_cons, ih]
      omega

lemma chunk3_length : ∀ l : List ℚ, (chunk3 l).length = l.length / 3
  | [] => rfl
  | [_] => by simp [chunk3]
  | [_, _] => by simp [chunk3]
  | _ :: _ :: _ :: rest => by
      have ih := chunk3_length rest
      simp only [chunk3, List.length_cons, ih]
      omega

lemma center_index (g : Geometry) : (center g).index = g.index := by
  unfold center
  split <;> rfl

lemma center_positions_length {g : Geometry} (h : 3 ∣ g.positions.length) :
    (center g).positions.length = g.positions.length := by
  unfold center
  split
  · rfl
  · next v vs hc =>
      have hlen := congrArg List.length hc
      rw [chunk3_length] at hlen
      simp only [List.length_cons] at hlen
      simp only [flatten3_length, List.length_map, List.length_cons]
      omega

lemma isWF_center {g : Geometry} (h : isWF g = true) : isWF (center g) = true := by
  rw [isWF_iff] at h ⊢
  obtain ⟨h3, hb⟩ := h
  have hlen := center_positions_length h3
  have hidx := center_index g
  refine ⟨by rw [hlen]; exact h3, ?_⟩
  intro i hi
  have hidxa : indexArray (center g) = indexArray g := by
    unfold indexArray
    rw [hidx]
  rw [hidxa] at hi
  have := hb i hi
  unfold vertexCount at this ⊢
  rw [hlen]
  omega

lemma mergeGeometries_isWF {gs : List Geometry} (h : ∀ g ∈ gs, isWF g = true) :
    isWF (mergeGeometries gs) = true := by
  have h3 : ∀ g ∈ gs, 3 ∣ g.positions.length :=
    fun g hg => ((isWF_iff g).1 (h g hg)).1
  have hb : ∀ g ∈ gs, ∀ i ∈ indexArray g, i < vertexCount g :=
    fun g hg => ((isWF_iff g).1 (h g hg)).2
  rw [mergeGeometries_eq h3, isWF_iff]
  have hsum := posLenSum_eq h3
  constructor
  · show 3 ∣ (posJoin gs).length
    rw [posJoin_length]
    omega
  · intro i hi
    show i < vertexCount ⟨posJoin gs, some (rebasedIndices 0 gs)⟩
    have := rebasedIndices_lt hb 0 i hi
    unfold vertexCount
    show i < (posJoin gs).length / 3
    rw [posJoin_length]
    omega

/-- Every profile generator produces `center (mergeGeometries (fourSides …))`; if the
extrusion function returns well-formed buffers, so does the generator. -/
lemma generator_isWF (E : ExtrudeFn) (hE : ∀ s pts, isWF (E s pts) = true)
    (shape : Shape) (outerW outerH : ℚ) :
    isWF (center (mergeGeometries (fourSides E shape outerW outerH))) = true := by
  refine isWF_center (mergeGeometries_isWF ?_)
  intro g hg
  simp only [fourSides, List.mem_cons, List.not_mem_nil, or_false] at hg
  rcases hg with rfl | rfl | rfl | rfl <;> exact hE _ _

/-! ## ModelGenerator (src/generators/ModelGenerator.ts, first file in the bundle) -/

/-- `Frame` of src/database.ts, restricted to the fields the pipeline reads.
(`price`, `in_stock`, timestamps, `image_url`, `ar_enabled`, `model_generated_at` and
`model_file_size` are never read by generation and are omitted; `material` — a closed
enum — together with `finish`/`color` feed only the material mapper and are kept as
plain strings.) -/
structure Frame where
  id : String
  sku : String
  name : String
  width : ℚ
  depth : ℚ
  profile_type : ProfileType
  material : String
  finish : String
  color : String
  model_glb_url : Option String := none
  model_usdz_url : Option String := none
deriving DecidableEq, Repr

/-- `ModelGenerator.createFrameProfile`: molding dimensions default through JS `||`
(`frame.width || 1.5`, `frame.depth || 0.75`), and the rabbet/lip/ornate parameters
are fixed constants (0.25, 0.25, 0.5, 0.15). -/
def createFrameProfile (frame : Frame) : FrameProfile :=
  { type := frame.profile_type,
    width := jsOr frame.width (3/2),
    depth := jsOr frame.depth (3/4),
    rabbet_depth := some (1/4),
    rabbet_width := some (1/4),
    lip_height := some (1/2),
    ornate_detail_scale := some (3/20) }

/-- Step 1 of `ModelGenerator.generateModels`: the geometry-synthesis invocation
`generateFrameGeometry(profile, frame.width, frame.width * 1.25)`. -/
def modelGeometry (E : ExtrudeFn) (frame : Frame) : Geometry :=
  generateFrameGeometry E (createFrameProfile frame) frame.width (frame.width * (5/4))

/-- The two exported asset kinds. -/
inductive Asset where
  | glb
  | usdz
deriving DecidableEq, Repr

/-- Observable pipeline events of `ModelGenerator.generateModels`, in program order:
GLB export, GLB validation (with its outcome), storage uploads, the USDZ conversion
attempt (with its outcome), and the `createSimpleUSDZ` fallback copy. -/
inductive Ev where
  | exportGLB
  | validate (a : Asset) (ok : Bool)
  | upload (a : Asset)
  | convertUSDZ (ok : Bool)
  | fallbackCopy
deriving DecidableEq, Repr

/-- `GenerationResult` of src/database.ts (`generation_time_ms` is wall-clock time,
modelled as 0). -/
structure GenerationResult where
  frame_id : String
  glb_url : String
  usdz_url : String
  file_size : ℕ
  generation_time_ms : ℕ
deriving DecidableEq, Repr

/-- `storage.uploadFile` returns the public URL for a storage key (deterministic in
the key for both the S3 and the local backend). -/
def uploadUrl (key : String) : String := "storage://" ++ key

/-- `frame.sku || frame.id` (JS `||`: the empty string is falsy). -/
def fileBase (frame : Frame) : String := if frame.sku == "" then frame.id else frame.sku

instance {α β : Type} [DecidableEq α] [DecidableEq β] : DecidableEq (Except α β) :=
  fun a b =>
    match a, b with
    | .ok x, .ok y =>
        if h : x = y then .isTrue (by rw [h]) else .isFalse (by simp [h])
    | .error x, .error y =>
        if h : x = y then .isTrue (by rw [h]) else .isFalse (by simp [h])
    | .ok _, .error _ => .isFalse (by simp)
    | .error _, .ok _ => .isFalse (by simp)

/-- Outcome of one `generateModels` run: the returned value or the thrown error, the
ordered event list, and the content left at the USDZ temp path (modelled as an
abstract `ℕ`; `none` when the run aborts before conversion). -/
structure GenOutcome where
  result : Except String GenerationResult
  events : List Ev
  usdzContent : Option ℕ
deriving DecidableEq, Repr

/-- `ModelGenerator.generateModels`, modelled over its external effects.
Parameters: `glbContent` — abstract content of the GLB file written by
`exportToGLB`; `glbSize` — the byte size it reports; `validOk` — the boolean
returned by `validateGLB`; `convertResult` — `some c` when some USDZ conversion
strategy succeeds and writes content `c`, `none` when `convertGLBToUSDZ` throws
(all strategies failed/unavailable), in which case `createSimpleUSDZ` copies the
GLB content to the USDZ path.  The returned `file_size` is the GLB size in every
successful run, and no field of the result records whether the USDZ was genuine. -/
def generateModels (frame : Frame) (glbContent glbSize : ℕ)
    (validOk : Bool) (convertResult : Option ℕ) : GenOutcome :=
  let glbFileName := fileBase frame ++ ".glb"
  let usdzFileName := fileBase frame ++ ".usdz"
  let preEvents := [Ev.exportGLB, Ev.validate .glb validOk]
  if validOk = false then
    { result := .error ("GLB file validation failed for frame " ++ frame.id),
      events := preEvents,
      usdzContent := none }
  else
    let glbUrl := uploadUrl ("frames/" ++ frame.id ++ "/" ++ glbFileName)
    let usdzUrl := uploadUrl ("frames/" ++ frame.id ++ "/" ++ usdzFileName)
    match convertResult with
    | some converted =>
        { result := .ok ⟨frame.id, glbUrl, usdzUrl, glbSize, 0⟩,
          events := preEvents ++ [Ev.upload .glb, Ev.convertUSDZ true, Ev.upload .usdz],
          usdzContent := some converted }
    | none =>
        { result := .ok ⟨frame.id, glbUrl, usdzUrl, glbSize, 0⟩,
          events := preEvents ++
            [Ev.upload .glb, Ev.convertUSDZ false, Ev.fallbackCopy, Ev.upload .usdz],
          usdzContent := some glbContent }

/-- Scan a `generateModels` event trace: every `upload glb` must be preceded by a
successful `validate glb`. -/
def glbUploadAfterValidation : List Ev → Bool → Bool
  | [], _ => true
  | Ev.validate .glb true :: rest, _ => glbUploadAfterValidation rest true
  | Ev.upload .glb :: rest, seen => seen && glbUploadAfterValidation rest seen
  | _ :: rest, seen => glbUploadAfterValidation rest seen

/-! ## Worker (src/worker.ts) -/

/-- Per-frame outcome statuses pushed by the worker (`'completed' | 'failed' |
'skipped' | 'not_found'`). -/
inductive OutcomeStatus where
  | completed
  | failed
  | skipped
  | not_found
deriving DecidableEq, Repr

/-- A per-frame outcome object as returned by `processGenerationJob` / pushed into a
batch's `results` (absent fields are `none`). -/
structure FrameOutcome where
  frameId : String
  status : OutcomeStatus
  glbUrl : Option String := none
  usdzUrl : Option String := none
  error : Option String := none
  fileSize : Option ℕ := none
  generationTimeMs : Option ℕ := none
deriving DecidableEq, Repr

/-- The persistence gateway: `db.getFrame`. -/
def DB : Type := String → Option Frame

/-- `db.updateFrameModels(id, glbUrl, usdzUrl, size)`: set the artifact URLs of an
existing frame row (a no-op on a missing id; the size/timestamp columns are not part
of the embedded `Frame`). -/
def dbUpdateFrameModels (db : DB) (frameId glbUrl usdzUrl : String) : DB :=
  fun fid =>
    if fid = frameId then
      match db fid with
      | some f => some { f with model_glb_url := some glbUrl, model_usdz_url := some usdzUrl }
      | none => none
    else db fid

/-- Observable worker events: database fetches, job-record writes, and the
`modelGenerator.generateModels` invocation (which performs geometry synthesis and
asset export). -/
inductive WEv where
  | getFrame (id : String)
  | createJobRecord
  | updateJobStatus (st : String)
  | generateModels (id : String)
  | updateFrameModels (id : String)
deriving DecidableEq, Repr

/-- Result of one `processGenerationJob` run: the returned outcome or the thrown
error, plus the ordered event list. -/
structure SingleRun where
  result : Except String FrameOutcome
  events : List WEv
deriving Repr

/-- `processGenerationJob` (src/worker.ts): fetch the frame (throw on missing);
short-circuit to `skipped` when both model URLs are truthy and regeneration is not
forced; otherwise create/advance the job record, run `generateModels`, persist the
URLs, and return `completed` — any generation error marks the job failed and
rethrows.  `gen` abstracts the `modelGenerator.generateModels` call. -/
def processGenerationJob (db : DB) (gen : Frame → Except String GenerationResult)
    (frameId : String) (forceRegenerate : Bool) : SingleRun :=
  match db frameId with
  | none =>
      { result := .error ("Frame not found: " ++ frameId),
        events := [.getFrame frameId] }
  | some frame =>
      if !forceRegenerate && strTruthy frame.model_glb_url && strTruthy frame.model_usdz_url then
        { result := .ok { frameId := frameId, status := .skipped,
                          glbUrl := frame.model_glb_url, usdzUrl := frame.model_usdz_url },
          events := [.getFrame frameId] }
      else
        match gen frame with
        | .ok r =>
            { result := .ok { frameId := frameId, status := .completed,
                              glbUrl := some r.glb_url, usdzUrl := some r.usdz_url,
                              fileSize := some r.file_size,
                              generationTimeMs := some r.generation_time_ms },
              events := [.getFrame frameId, .createJobRecord, .updateJobStatus "processing",
                         .generateModels frameId, .updateFrameModels frameId,
                         .updateJobStatus "completed"] }
        | .error e =>
            { result := .error e,
              events := [.getFrame frameId, .createJobRecord, .updateJobStatus "processing",
                         .generateModels frameId, .updateJobStatus "failed"] }

/-- The per-frame loop of `processBatchGenerationJob`: each iteration pushes exactly
one outcome (`not_found` / `skipped` / `completed` / `failed`); a failure is caught
and recorded, never rethrown; `db.updateFrameModels` threads the database state. -/
def batchLoop (gen : Frame → Except String GenerationResult) (forceRegenerate : Bool) :
    DB → List String → List FrameOutcome × DB
  | db, [] => ([], db)
  | db, frameId :: rest =>
      match db frameId with
      | none =>
          let r := batchLoop gen forceRegenerate db rest
          ({ frameId := frameId, status := .not_found } :: r.1, r.2)
      | some frame =>
          if !forceRegenerate && strTruthy frame.model_glb_url &&
              strTruthy frame.model_usdz_url then
            let r := batchLoop gen forceRegenerate db rest
            ({ frameId := frameId, status := .skipped,
               glbUrl := frame.model_glb_url, usdzUrl := frame.model_usdz_url } :: r.1, r.2)
          else
            match gen frame with
            | .ok res =>
                let db' := dbUpdateFrameModels db frameId res.glb_url res.usdz_url
                let r := batchLoop gen forceRegenerate db' rest
                ({ frameId := frameId, status := .completed,
                   glbUrl := some res.glb_url, usdzUrl := some res.usdz_url } :: r.1, r.2)
            | .error e =>
                let r := batchLoop gen forceRegenerate db rest
                ({ frameId := frameId, status := .failed, error := some e } :: r.1, r.2)

/-- The aggregate object returned by `processBatchGenerationJob`. -/
structure BatchSummary where
  total : ℕ
  successful : ℕ
  failed : ℕ
  skipped : ℕ
  results : List FrameOutcome
deriving Repr

/-- `processBatchGenerationJob` (src/worker.ts): run the per-frame loop and aggregate
the counts.  The function is total — the batch itself never throws. -/
def processBatchGenerationJob (db : DB) (gen : Frame → Except String GenerationResult)
    (frameIds : List String) (forceRegenerate : Bool) : BatchSummary :=
  let results := (batchLoop gen forceRegenerate db frameIds).1
  { total := frameIds.length,
    successful := (results.filter (fun r => r.status == .completed)).length,
    failed := (results.filter (fun r => r.status == .failed)).length,
    skipped := (results.filter (fun r => r.status == .skipped)).length,
    results := results }

/-! ## Queue (src/queue/queue.ts) -/

/-- A BullMQ job id: either the explicit dedup key `frame-${frameId}` passed by
`addGenerationJob` (the fixed prefix makes it injective in the frame id and disjoint
from auto ids), or a queue-assigned incremental numeric id. -/
inductive JobId where
  | frameKey (frameId : String)
  | auto (n : ℕ)
deriving DecidableEq, Repr

/-- BullMQ job states relevant to dedup (pending covers waiting/delayed). -/
inductive QStatus where
  | pending
  | processing
  | completed
  | failed
deriving DecidableEq, Repr

/-- Terminal job states. -/
def QStatus.isTerminal : QStatus → Bool
  | .completed => true
  | .failed => true
  | _ => false

/-- A queued generation job. -/
structure QJob where
  id : JobId
  frameId : String
  status : QStatus
deriving DecidableEq, Repr

/-- The queue's state: the stored jobs and the next auto-assigned id. -/
structure QState where
  jobs : List QJob
  nextAutoId : ℕ
deriving DecidableEq, Repr

/-- The empty queue. -/
def emptyQueue : QState := ⟨[], 0⟩

/-- BullMQ `Queue.add`: with an explicit `jobId` option, the add is suppressed when a
job with that id already exists (duplicate prevention); without one, the job is
stored under a fresh auto-assigned id unconditionally. -/
def bullAdd (s : QState) (jobId : Option JobId) (frameId : String) : QState :=
  match jobId with
  | some jid =>
      if s.jobs.any (fun j => j.id == jid) then s
      else { s with jobs := s.jobs ++ [⟨jid, frameId, .pending⟩] }
  | none =>
      { jobs := s.jobs ++ [⟨.auto s.nextAutoId, frameId, .pending⟩],
        nextAutoId := s.nextAutoId + 1 }

/-- `addGenerationJob`: adds `'generate-model'` with `jobId: frame-${frameId}`
("Prevent duplicate jobs"). -/
def addGenerationJob (s : QState) (frameId : String) : QState :=
  bullAdd s (some (.frameKey frameId)) frameId

/-- `addBatchGenerationJob`: adds one `'generate-model'` job per frame id, passing
**no** `jobId` option. -/
def addBatchGenerationJob (s : QState) (frameIds : List String) : QState :=
  frameIds.foldl (fun acc fid => bullAdd acc none fid) s

/-- Number of non-terminal jobs stored for a frame id. -/
def nonTerminalCount (s : QState) (frameId : String) : ℕ :=
  (s.jobs.filter (fun j => j.frameId == frameId && !j.status.isTerminal)).length

/-! ## Queue dedup lemmas -/

lemma bullAdd_some (s : QState) (jid : JobId) (fid : String) :
    bullAdd s (some jid) fid =
      if s.jobs.any (fun j => j.id == jid) then s
      else { s with jobs := s.jobs ++ [⟨jid, fid, .pending⟩] } := rfl

/-- Invariant of states reachable through `addGenerationJob` alone: every job is
stored under its frame dedup key, and no two jobs share a frame id. -/
def QInv (s : QState) : Prop :=
  (∀ j ∈ s.jobs, j.id = .frameKey j.frameId) ∧
  s.jobs.Pairwise (fun a b => a.frameId ≠ b.frameId)

lemma QInv_empty : QInv emptyQueue :=
  ⟨by simp [emptyQueue], by simp [emptyQueue]⟩

lemma QInv_add {s : QState} (h : QInv s) (fid : String) : QInv (addGenerationJob s fid) := by
  obtain ⟨hid, hpw⟩ := h
  unfold addGenerationJob
  rw [bullAdd_some]
  by_cases hany : (s.jobs.any fun j => j.id == JobId.frameKey fid) = true
  · rw [if_pos hany]
    exact ⟨hid, hpw⟩
  · rw [if_neg hany]
    constructor
    · intro j hj
      rcases List.mem_append.1 hj with hm | hm
      · exact hid j hm
      · simp only [List.mem_singleton] at hm
        subst hm
        rfl
    · rw [List.pairwise_append]
      refine ⟨hpw, by simp, ?_⟩
      intro a ha b hb
      simp only [List.mem_singleton] at hb
      subst hb
      intro hEq
      apply hany
      rw [List.any_eq_true]
      exact ⟨a, ha, by rw [hid a ha, show a.frameId = fid from hEq]; simp⟩

lemma count_le_one_of_pairwise :
    ∀ l : List QJob, l.Pairwise (fun a b => a.frameId ≠ b.frameId) → ∀ fid : String,
      (l.filter (fun j => j.frameId == fid && !j.status.isTerminal)).length ≤ 1 := by
  intro l
  induction l with
  | nil => simp
  | cons j rest ih =>
      intro hpw fid
      rw [List.pairwise_cons] at hpw
      obtain ⟨hhead, htail⟩ := hpw
      rw [List.filter_cons]
      by_cases hj : (j.frameId == fid && !j.status.isTerminal) = true
      · rw [if_pos hj]
        have hjf : j.frameId = fid := by
          rw [Bool.and_eq_true, beq_iff_eq] at hj
          exact hj.1
        have hnil : rest.filter (fun j => j.frameId == fid && !j.status.isTerminal) = [] := by
          rw [List.filter_eq_nil_iff]
          intro b hb
          have hne := hhead b hb
          simp only [Bool.and_eq_true, beq_iff_eq, not_and]
          intro hbf
          exact absurd (hjf.trans hbf.symm) hne
        rw [hnil]
        simp
      · rw [if_neg hj]
        exact ih htail fid

lemma QInv_foldl : ∀ (fids : List String) (s : QState), QInv s →
    QInv (fids.foldl addGenerationJob s) := by
  intro fids
  induction fids with
  | nil => intro s h; exact h
  | cons fid rest ih =>
      intro s h
      exact ih (addGenerationJob s fid) (QInv_add h fid)

/-! ## Batch-loop lemmas -/

lemma dbUpdate_isNone (db : DB) (frameId glbUrl usdzUrl : String) (x : String) :
    ((dbUpdateFrameModels db frameId glbUrl usdzUrl) x).isNone = (db x).isNone := by
  unfold dbUpdateFrameModels
  split
  · cases db x <;> simp
  · rfl

lemma batchLoop_cons_none {db : DB} {fid : String} (gen : Frame → Except String GenerationResult)
    (force : Bool) (rest : List String) (h : db fid = none) :
    batchLoop gen force db (fid :: rest) =
      ({ frameId := fid, status := .not_found } :: (batchLoop gen force db rest).1,
        (batchLoop gen force db rest).2) := by
  rw [batchLoop, h]

lemma batchLoop_cons_some {db : DB} {fid : String} {frame : Frame}
    (gen : Frame → Except String GenerationResult) (force : Bool) (rest : List String)
    (h : db fid = some frame) :
    batchLoop gen force db (fid :: rest) =
      if (!force && strTruthy frame.model_glb_url && strTruthy frame.model_usdz_url) = true then
        ({ frameId := fid, status := .skipped, glbUrl := frame.model_glb_url,
            usdzUrl := frame.model_usdz_url } :: (batchLoop gen force db rest).1,
          (batchLoop gen force db rest).2)
      else
        match gen frame with
        | .ok res =>
            ({ frameId := fid, status := .completed, glbUrl := some res.glb_url,
                usdzUrl := some res.usdz_url } ::
                  (batchLoop gen force
                    (dbUpdateFrameModels db fid res.glb_url res.usdz_url) rest).1,
              (batchLoop gen force
                (dbUpdateFrameModels db fid res.glb_url res.usdz_url) rest).2)
        | .error e =>
            ({ frameId := fid, status := .failed, error := some e } ::
                  (batchLoop gen force db rest).1,
              (batchLoop gen force db rest).2) := by
  rw [batchLoop, h]

lemma batchLoop_spec (gen : Frame → Except String GenerationResult) (force : Bool) :
    ∀ (frameIds : List String) (db : DB),
      (batchLoop gen force db frameIds).1.length = frameIds.length ∧
      ((batchLoop gen force db frameIds).1.filter
          (fun r => r.status == .not_found)).length
        = (frameIds.filter (fun fid => (db fid).isNone)).length ∧
      ∀ x, ((batchLoop gen force db frameIds).2 x).isNone = (db x).isNone := by
  intro frameIds
  induction frameIds with
  | nil => intro db; exact ⟨rfl, rfl, fun x => rfl⟩
  | cons fid rest ih =>
      intro db
      cases hdb : db fid with
      | none =>
          obtain ⟨ihl, ihc, ihd⟩ := ih db
          rw [batchLoop_cons_none gen force rest hdb]
          refine ⟨by simpa using ihl, ?_, fun x => ihd x⟩
          rw [List.filter_cons, List.filter_cons, if_pos (by rfl), if_pos (by simp [hdb])]
          simpa using ihc
      | some frame =>
          rw [batchLoop_cons_some gen force rest hdb]
          have hfl : (fid :: rest).filter (fun f => (db f).isNone)
              = rest.filter (fun f => (db f).isNone) := by
            rw [List.filter_cons, if_neg (by simp [hdb])]
          by_cases hc : (!force && strTruthy frame.model_glb_url &&
              strTruthy frame.model_usdz_url) = true
          · rw [if_pos hc]
            obtain ⟨ihl, ihc, ihd⟩ := ih db
            refine ⟨by simpa using ihl, ?_, fun x => ihd x⟩
            rw [List.filter_cons, if_neg (by simp), hfl]
            exact ihc
          · rw [if_neg hc]
            cases hg : gen frame with
            | ok res =>
                obtain ⟨ihl, ihc, ihd⟩ :=
                  ih (dbUpdateFrameModels db fid res.glb_url res.usdz_url)
                refine ⟨by simpa using ihl, ?_, ?_⟩
                · rw [List.filter_cons, if_neg (by simp), hfl, ihc]
                  exact congrArg List.length
                    (List.filter_congr (fun a _ => by rw [dbUpdate_isNone]))
                · intro x
                  rw [ihd x, dbUpdate_isNone]
            | error e =>
                obtain ⟨ihl, ihc, ihd⟩ := ih db
                refine ⟨by simpa using ihl, ?_, fun x => ihd x⟩
                rw [List.filter_cons, if_neg (by simp), hfl]
                exact ihc

/-! ## Concrete fixtures for witnesses and counterexamples -/

/-- A concrete extrusion backend producing one well-formed triangle per sweep. -/
def extrudeTri : ExtrudeFn := fun _ _ =>
  { positions := [0, 0, 0, 1, 0, 0, 0, 1, 0], index := some [0, 1, 2] }

/-- The §8 scenario profile: flat, 1.5×0.75 molding, 0.25 rabbet. -/
def flatSample : FrameProfile :=
  { type := .flat, width := 3/2, depth := 3/4,
    rabbet_depth := some (1/4), rabbet_width := some (1/4) }

/-- A concrete frame without existing model URLs. -/
def sampleFrame : Frame :=
  { id := "frame-001", sku := "SKU1", name := "Classic", width := 16, depth := 2,
    profile_type := .flat, material := "wood", finish := "matte", color := "brown" }

/-- A concrete frame lacking model URLs, used in the batch witness database. -/
def wFrame1 : Frame :=
  { id := "f1", sku := "S1", name := "A", width := 10, depth := 1,
    profile_type := .flat, material := "wood", finish := "gloss", color := "black" }

/-- A concrete frame that already has both model URLs. -/
def wFrame2 : Frame :=
  { wFrame1 with
    id := "f2"
    sku := "S2"
    model_glb_url := some "g"
    model_usdz_url := some "u" }

/-- A concrete database: `f1` and `f2` exist, everything else is missing. -/
def wDb : DB :=
  fun fid => if fid = "f1" then some wFrame1 else if fid = "f2" then some wFrame2 else none

/-- A concrete always-succeeding generator. -/
def wGen : Frame → Except String GenerationResult :=
  fun f => .ok ⟨f.id, "g", "u", 1, 0⟩

/-- A concrete well-formed triangle geometry. -/
def gA : Geometry := { positions := [0, 0, 0, 1, 0, 0, 0, 1, 0], index := some [0, 1, 2] }

/-- A concrete well-formed quad geometry. -/
def gB : Geometry :=
  { positions := [2, 0, 0, 3, 0, 0, 2, 1, 0, 3, 1, 0], index := some [0, 1, 2, 2, 1, 3] }

/-- A concrete ornate frame. -/
def cFrameA : Frame :=
  { id := "fa", sku := "A", name := "Frame A", width := 20, depth := 1,
    profile_type := .ornate, material := "wood", finish := "gloss", color := "gold" }

/-- A frame agreeing with `cFrameA` on width, depth and profile type but differing in
every generation-irrelevant field. -/
def cFrameB : Frame :=
  { id := "fb", sku := "B", name := "Frame B", width := 20, depth := 1,
    profile_type := .ornate, material := "metal", finish := "matte", color := "silver",
    model_glb_url := some "old" }

lemma extrudeTri_isWF : ∀ s pts, isWF (extrudeTri s pts) = true := by
  intro s pts
  show isWF { positions := [0, 0, 0, 1, 0, 0, 0, 1, 0], index := some [0, 1, 2] } = true
  decide

lemma processGenerationJob_some {db : DB} {frameId : String} {frame : Frame}
    (gen : Frame → Except String GenerationResult) (force : Bool)
    (h : db frameId = some frame) :
    processGenerationJob db gen frameId force =
      if (!force && strTruthy frame.model_glb_url && strTruthy frame.model_usdz_url) = true
      then
        { result := .ok { frameId := frameId, status := .skipped,
                          glbUrl := frame.model_glb_url, usdzUrl := frame.model_usdz_url },
          events := [.getFrame frameId] }
      else
        match gen frame with
        | .ok r =>
            { result := .ok { frameId := frameId, status := .completed,
                              glbUrl := some r.glb_url, usdzUrl := some r.usdz_url,
                              fileSize := some r.file_size,
                              generationTimeMs := some r.generation_time_ms },
              events := [.getFrame frameId, .createJobRecord, .updateJobStatus "processing",
                         .generateModels frameId, .updateFrameModels frameId,
                         .updateJobStatus "completed"] }
        | .error e =>
            { result := .error e,
              events := [.getFrame frameId, .createJobRecord, .updateJobStatus "processing",
                         .generateModels frameId, .updateJobStatus "failed"] } := by
  rw [processGenerationJob, h]

/-! ## Claim theorems -/

/-- Claim C1: for every profile type and all input dimensions (and any extrusion
backend returning well-formed buffers), the mesh buffer produced by geometry
synthesis has every index value strictly below its vertex count, and a position
array of length exactly `3 * vertexCount`. -/
theorem C1_synthesis_meshbuffer_invariants (E : ExtrudeFn)
    (hE : ∀ s pts, isWF (E s pts) = true) (p : FrameProfile) (ow oh : ℚ) :
    (generateFrameGeometry E p ow oh).positions.length
        = 3 * vertexCount (generateFrameGeometry E p ow oh) ∧
    ∀ i ∈ indexArray (generateFrameGeometry E p ow oh),
      i < vertexCount (generateFrameGeometry E p ow oh) := by
  have h : isWF (generateFrameGeometry E p ow oh) = true := by
    rcases p with ⟨ty, w, d, rwidth, rdepth, lh, os⟩
    cases ty <;> exact generator_isWF E hE _ _ _
  rw [isWF_iff] at h
  obtain ⟨h3, hb⟩ := h
  refine ⟨?_, hb⟩
  unfold vertexCount
  omega

/-- Witness for C1: the triangle extruder is well-formed, and the §8 flat sample
frame at 30×40 satisfies the invariants. -/
theorem C1_witness :
    (∀ s pts, isWF (extrudeTri s pts) = true) ∧
    ((generateFrameGeometry extrudeTri flatSample 30 40).positions.length
        = 3 * vertexCount (generateFrameGeometry extrudeTri flatSample 30 40) ∧
      ∀ i ∈ indexArray (generateFrameGeometry extrudeTri flatSample 30 40),
        i < vertexCount (generateFrameGeometry extrudeTri flatSample 30 40)) :=
  ⟨extrudeTri_isWF,
    C1_synthesis_meshbuffer_invariants extrudeTri extrudeTri_isWF flatSample 30 40⟩

/-- Claim C2 is false as stated: `addBatchGenerationJob` passes no `jobId`, so a
batch submission while a non-terminal single job for the same frame is in flight
schedules duplicate work — after `addGenerationJob "f1"` followed by a batch
submission of `["f1"]`, two non-terminal jobs for `f1` exist. -/
theorem C2_counterexample :
    nonTerminalCount
      (addBatchGenerationJob (addGenerationJob emptyQueue "f1") ["f1"]) "f1" = 2 := by
  decide

/-- Claim C2 (amended): submissions through `addGenerationJob` are deduplicated by
the `frame-${frameId}` job id — after any sequence of single-job submissions, at
most one non-terminal job exists per frame reference.  (Batch submissions pass no
job id and are not deduplicated.) -/
theorem C2_single_submission_dedup (frameIds : List String) (fid : String) :
    nonTerminalCount (frameIds.foldl addGenerationJob emptyQueue) fid ≤ 1 := by
  have h := QInv_foldl frameIds emptyQueue QInv_empty
  exact count_le_one_of_pairwise _ h.2 fid

/-- Claim C3: geometry synthesis is deterministic — two calls with equal profile
parameters, outer width and outer height produce element-for-element identical
position and index arrays. -/
theorem C3_synthesis_deterministic (E : ExtrudeFn) (p₁ p₂ : FrameProfile)
    (ow₁ ow₂ oh₁ oh₂ : ℚ) (hp : p₁ = p₂) (hw : ow₁ = ow₂) (hh : oh₁ = oh₂) :
    (generateFrameGeometry E p₁ ow₁ oh₁).positions
        = (generateFrameGeometry E p₂ ow₂ oh₂).positions ∧
    (generateFrameGeometry E p₁ ow₁ oh₁).index
        = (generateFrameGeometry E p₂ ow₂ oh₂).index := by
  subst hp
  subst hw
  subst hh
  exact ⟨rfl, rfl⟩

/-- Witness for C3 at the concrete sample inputs. -/
theorem C3_witness :
    (flatSample = flatSample ∧ (30 : ℚ) = 30 ∧ (40 : ℚ) = 40) ∧
    ((generateFrameGeometry extrudeTri flatSample 30 40).positions
        = (generateFrameGeometry extrudeTri flatSample 30 40).positions ∧
      (generateFrameGeometry extrudeTri flatSample 30 40).index
        = (generateFrameGeometry extrudeTri flatSample 30 40).index) :=
  ⟨⟨rfl, rfl, rfl⟩,
    C3_synthesis_deterministic extrudeTri flatSample flatSample 30 30 40 40 rfl rfl rfl⟩

/-- Claim C4 is false in its flag part: the conversion fallback produces a result
carrying **no** non-genuine flag — a run whose conversion fails (and falls back to
the copied wrapper) returns a `GenerationResult` identical to the one returned when
conversion genuinely succeeds. -/
theorem C4_counterexample :
    (generateModels sampleFrame 7 100 true none).result
        = (generateModels sampleFrame 7 100 true (some 9)).result ∧
    (generateModels sampleFrame 7 100 true none).result
        = .ok { frame_id := "frame-001",
                glb_url := "storage://frames/frame-001/SKU1.glb",
                usdz_url := "storage://frames/frame-001/SKU1.usdz",
                file_size := 100, generation_time_ms := 0 } := by
  exact ⟨rfl, rfl⟩

/-- Claim C4 (amended): whenever every conversion strategy fails, `generateModels`
falls back to `createSimpleUSDZ`, which copies the primary GLB content to the file
with the secondary `.usdz` extension and uploads it; but the returned result
carries no genuineness flag — it is identical to a genuine conversion's result, the
fallback being recorded only in the event log. -/
theorem C4_fallback_unflagged (frame : Frame) (glbContent glbSize converted : ℕ) :
    Ev.fallbackCopy ∈ (generateModels frame glbContent glbSize true none).events ∧
    (generateModels frame glbContent glbSize true none).usdzContent = some glbContent ∧
    (generateModels frame glbContent glbSize true none).result
        = (generateModels frame glbContent glbSize true (some converted)).result := by
  refine ⟨?_, rfl, rfl⟩
  simp [generateModels]

/-- Claim C5: a batch in which exactly one id resolves to no frame yields exactly
one `not_found` outcome and N−1 outcomes of other statuses; the batch function is
total (never raises). -/
theorem C5_batch_single_missing (db : DB) (gen : Frame → Except String GenerationResult)
    (frameIds : List String) (force : Bool)
    (h : (frameIds.filter (fun fid => (db fid).isNone)).length = 1) :
    (processBatchGenerationJob db gen frameIds force).results.length = frameIds.length ∧
    ((processBatchGenerationJob db gen frameIds force).results.filter
        (fun r => r.status == .not_found)).length = 1 ∧
    ((processBatchGenerationJob db gen frameIds force).results.filter
        (fun r => !(r.status == .not_found))).length = frameIds.length - 1 := by
  obtain ⟨hl, hc, _⟩ := batchLoop_spec gen force frameIds db
  have hres : (processBatchGenerationJob db gen frameIds force).results
      = (batchLoop gen force db frameIds).1 := rfl
  rw [hres]
  have hcount : ((batchLoop gen force db frameIds).1.filter
      (fun r => r.status == .not_found)).length = 1 := by rw [hc]; exact h
  refine ⟨hl, hcount, ?_⟩
  have hsplit := List.length_eq_length_filter_add
    (l := (batchLoop gen force db frameIds).1) (fun r => r.status == .not_found)
  omega

/-- Witness for C5: a three-id batch whose middle id is missing. -/
theorem C5_witness :
    ((["f1", "missing", "f2"].filter (fun fid => (wDb fid).isNone)).length = 1) ∧
    ((processBatchGenerationJob wDb wGen ["f1", "missing", "f2"] false).results.length
        = ["f1", "missing", "f2"].length ∧
      ((processBatchGenerationJob wDb wGen ["f1", "missing", "f2"] false).results.filter
          (fun r => r.status == .not_found)).length = 1 ∧
      ((processBatchGenerationJob wDb wGen ["f1", "missing", "f2"] false).results.filter
          (fun r => !(r.status == .not_found))).length
        = ["f1", "missing", "f2"].length - 1) :=
  ⟨by decide, C5_batch_single_missing wDb wGen ["f1", "missing", "f2"] false (by decide)⟩

/-- Claim C6 is false as stated: in a successful run, the USDZ asset is uploaded
although no validation of the USDZ asset ever occurs (`validateUSDZ` is never
invoked by `generateModels`). -/
theorem C6_counterexample :
    Ev.upload .usdz ∈ (generateModels sampleFrame 7 100 true (some 9)).events ∧
    ∀ b, Ev.validate .usdz b ∉ (generateModels sampleFrame 7 100 true (some 9)).events := by
  decide

/-- Claim C6 (amended): only the primary (GLB) asset is guarded by validation — in
every run, an upload of the GLB is preceded by a successful `validateGLB`; the
secondary (USDZ) asset is uploaded without any prior validation. -/
theorem C6_glb_upload_after_validation (frame : Frame) (glbContent glbSize : ℕ)
    (validOk : Bool) (convertResult : Option ℕ) :
    glbUploadAfterValidation
      (generateModels frame glbContent glbSize validOk convertResult).events false = true := by
  cases validOk <;> rcases convertResult with _ | c <;> rfl

/-- Claim C7: a frame whose two model URLs are both populated, processed with
`forceRegenerate = false`, yields a `skipped` result carrying the existing URLs,
and the run performs no synthesis/export (`generateModels` is not invoked — the
event trace is just the frame fetch). -/
theorem C7_skip_existing_models (db : DB) (gen : Frame → Except String GenerationResult)
    (frameId : String) (frame : Frame) (hdb : db frameId = some frame)
    (hg : strTruthy frame.model_glb_url = true)
    (hu : strTruthy frame.model_usdz_url = true) :
    (processGenerationJob db gen frameId false).result
        = .ok { frameId := frameId, status := .skipped,
                glbUrl := frame.model_glb_url, usdzUrl := frame.model_usdz_url } ∧
    (processGenerationJob db gen frameId false).events = [.getFrame frameId] := by
  rw [processGenerationJob_some gen false hdb, if_pos (by simp [hg, hu])]
  exact ⟨rfl, rfl⟩

/-- Witness for C7: the frame `f2` of the sample database already has both URLs. -/
theorem C7_witness :
    (wDb "f2" = some wFrame2 ∧ strTruthy wFrame2.model_glb_url = true ∧
      strTruthy wFrame2.model_usdz_url = true) ∧
    ((processGenerationJob wDb wGen "f2" false).result
        = .ok { frameId := "f2", status := .skipped,
                glbUrl := wFrame2.model_glb_url, usdzUrl := wFrame2.model_usdz_url } ∧
      (processGenerationJob wDb wGen "f2" false).events = [.getFrame "f2"]) :=
  ⟨⟨by decide, by decide, by decide⟩,
    C7_skip_existing_models wDb wGen "f2" wFrame2 (by decide) (by decide) (by decide)⟩

/-- Claim C8: the shadowbox generator equals the flat generator applied to the same
profile with its depth replaced by `max depth 2` (all other parameters passed
through unchanged). -/
theorem C8_shadowbox_is_clamped_flat (E : ExtrudeFn) (w d : ℚ)
    (rwidth rdepth lh os : Option ℚ) (ow oh : ℚ) :
    generateFrameGeometry E ⟨.shadowbox, w, d, rdepth, rwidth, lh, os⟩ ow oh
      = generateFlatProfile E ⟨.shadowbox, w, max d 2, rdepth, rwidth, lh, os⟩ ow oh := rfl

/-- Claim C9: the merge neither deduplicates nor drops vertices — the merged vertex
count is the sum of the inputs' vertex counts, and the merged index array is the
concatenation of the inputs' indices rewritten by the running vertex-base offset. -/
theorem C9_merge_preserves_vertices (gs : List Geometry)
    (h3 : ∀ g ∈ gs, 3 ∣ g.positions.length) :
    vertexCount (mergeGeometries gs) = (gs.map vertexCount).sum ∧
    indexArray (mergeGeometries gs) = rebasedIndices 0 gs := by
  rw [mergeGeometries_eq h3]
  constructor
  · show (posJoin gs).length / 3 = (gs.map vertexCount).sum
    rw [posJoin_length]
    have := posLenSum_eq h3
    omega
  · rfl

/-- Witness for C9 on two concrete geometries (a triangle and a quad). -/
theorem C9_witness :
    (∀ g ∈ [gA, gB], 3 ∣ g.positions.length) ∧
    (vertexCount (mergeGeometries [gA, gB]) = ([gA, gB].map vertexCount).sum ∧
      indexArray (mergeGeometries [gA, gB]) = rebasedIndices 0 [gA, gB]) :=
  ⟨by decide, C9_merge_preserves_vertices [gA, gB] (by decide)⟩

/-- Claim C10: `generateModels` invokes synthesis with outer height `1.25 * width`
and the fixed profile constants (rabbet 0.25/0.25, lip 0.5, ornate scale 0.15);
consequently two frames agreeing on width, depth and profile type — whatever their
other fields — get identical geometry. -/
theorem C10_derived_height_and_constants (E : ExtrudeFn) (f1 f2 : Frame)
    (hw : f1.width = f2.width) (hd : f1.depth = f2.depth)
    (ht : f1.profile_type = f2.profile_type) :
    modelGeometry E f1
        = generateFrameGeometry E
            { type := f1.profile_type, width := jsOr f1.width (3/2),
              depth := jsOr f1.depth (3/4), rabbet_depth := some (1/4),
              rabbet_width := some (1/4), lip_height := some (1/2),
              ornate_detail_scale := some (3/20) }
            f1.width (f1.width * (5/4)) ∧
    modelGeometry E f1 = modelGeometry E f2 := by
  refine ⟨rfl, ?_⟩
  unfold modelGeometry createFrameProfile
  rw [hw, hd, ht]

/-- Witness for C10: two frames sharing only width/depth/profile type. -/
theorem C10_witness :
    (cFrameA.width = cFrameB.width ∧ cFrameA.depth = cFrameB.depth ∧
      cFrameA.profile_type = cFrameB.profile_type) ∧
    (modelGeometry extrudeTri cFrameA
        = generateFrameGeometry extrudeTri
            { type := cFrameA.profile_type, width := jsOr cFrameA.width (3/2),
              depth := jsOr cFrameA.depth (3/4), rabbet_depth := some (1/4),
              rabbet_width := some (1/4), lip_height := some (1/2),
              ornate_detail_scale := some (3/20) }
            cFrameA.width (cFrameA.width * (5/4)) ∧
      modelGeometry extrudeTri cFrameA = modelGeometry extrudeTri cFrameB) :=
  ⟨⟨rfl, rfl, rfl⟩,
    C10_derived_height_and_constants extrudeTri cFrameA cFrameB rfl rfl rfl⟩
